import Mathlib

/-!
# Verification of the schema-driven SQL statement builder

A shallow embedding of the statement-building core of the repository
(`src/Model.py` and `src/Database.py`).  Pure query construction is
modelled as Lean functions returning a structured record per statement
kind (the record mirrors the `psycopg2.sql` composition tree the Python
code builds: one field per `format` argument); stateless validation
failures (`raise` before any `execute`) are modelled with `Except`: an
`Except.error` result means the exception fires before any statement
reaches the connection collaborator.

Python dictionaries (the `columns` mapping, the `**values` keyword
mapping, the `where` mapping) are modelled as association lists in
insertion order, matching Python 3.7+ dict/kwargs iteration order.
Bound SQL parameters carry an opaque `Value` type; `Value.null` models
Python `None`.
-/

/-- A runtime value bound as a SQL parameter.  `null` models Python `None`. -/
inductive Value
  | str (s : String)
  | int (n : Int)
  | null
deriving DecidableEq, Repr

/-- `subList needle hay`: does `needle` occur as a contiguous sublist of `hay`?
Structural-recursion model of Python substring containment. -/
def subList (needle : List Char) : List Char → Bool
  | [] => needle.isEmpty
  | c :: rest => needle.isPrefixOf (c :: rest) || subList needle rest

/-- `isSubstring sub s` models the Python expression `sub in s` on strings. -/
def isSubstring (sub s : String) : Bool :=
  subList sub.data s.data

/-- The table descriptor held by a constructed `Model`
(`src/Model.py`, `Model.__init__`, lines 25-27): table name, ordered
primary-key list, and the ordered column-name-to-type mapping. -/
structure Model where
  name : String
  primary_keys : List String
  columns : List (String × String)
deriving DecidableEq, Repr

/-- `src/Model.py` line 29:
`self.serial_primary_keys = [k for k, v in self.columns.items() if "SERIAL" in v]` —
N.B. the comprehension ranges over ALL columns, not only primary keys. -/
def Model.serial_primary_keys (m : Model) : List String :=
  (m.columns.filter (fun kv => isSubstring "SERIAL" kv.2)).map Prod.fst

/-- `col in self.columns` (membership in the keys of the column mapping). -/
def Model.hasCol (m : Model) (col : String) : Bool :=
  (m.columns.map Prod.fst).contains col

/-- The raw model definition dictionary passed to `Model.__init__`
(`model_definition.get(...)`, lines 25-27).  `primary_keys = none` models
the Python value being `None`/absent or not a list (both fall into the
same `RequiredParameterNotSetError` branch of lines 33-34); a `columns`
value that is absent entirely (Python `None`, which would raise
`AttributeError` at line 29 before any validation) is outside this model:
`columns` is always a (possibly empty) mapping here. -/
structure ModelDefinition where
  name : String
  primary_keys : Option (List String)
  columns : List (String × String)
deriving DecidableEq, Repr

/-- The constructor-time errors of `Model.__init__`:
`MissingParameter` models `RequiredParameterNotSetError` (lines 31-36),
`InvalidPrimaryKey` models the `ValueError` of lines 37-39. -/
inductive InitError
  | MissingParameter (p : String)
  | InvalidPrimaryKey (pk : String)
deriving DecidableEq, Repr

/-- `Model.__init__` validation (`src/Model.py` lines 31-39), returning the
constructed descriptor or the first error raised.  The checks run in
source order: empty name, then missing/empty/non-list primary keys, then
empty columns, then each primary key being a declared column (first
offender, loop order). -/
def mkModel (d : ModelDefinition) : Except InitError Model :=
  if d.name = "" then
    .error (.MissingParameter "table_name")
  else
    match d.primary_keys with
    | none => .error (.MissingParameter "primary_keys. Must provide a list of at least one primary key")
    | some pks =>
      if pks = [] then
        .error (.MissingParameter "primary_keys. Must provide a list of at least one primary key")
      else if d.columns = [] then
        .error (.MissingParameter "columns. A Model() [table] should have at least one column")
      else
        match pks.find? (fun pk => !(decide (pk ∈ d.columns.map Prod.fst))) with
        | some pk => .error (.InvalidPrimaryKey pk)
        | none => .ok { name := d.name, primary_keys := pks, columns := d.columns }

/-- The conflict clause chosen at `src/Model.py` lines 91-101:
`doNothing` renders as `ON CONFLICT DO NOTHING`; `doUpdate cs us` renders
as `ON CONFLICT (cs...) DO UPDATE SET u = EXCLUDED.u` for each `u` in
`us`. -/
inductive ConflictClause
  | doNothing
  | doUpdate (conflict_cols : List String) (set_cols : List String)
deriving DecidableEq, Repr

/-- The structure of the INSERT statement assembled at lines 103-110:
`INSERT INTO table (insert_columns...) VALUES (placeholders many %s)
conflict RETURNING returning`. -/
structure InsertQuery where
  table : String
  insert_columns : List String
  placeholders : Nat
  conflict : ConflictClause
  returning : String
deriving DecidableEq, Repr

/-- The `ValueError` of `src/Model.py` line 86.  The Python message holds
`set(self.columns) - set(columns_to_insert)`, an unordered set; it is
represented here by the missing columns listed in declaration order. -/
inductive RowError
  | MissingColumnValue (missing : List String)
deriving DecidableEq, Repr

/-- Line 80: `columns_to_insert = [col for col in values if col in self.columns]`.
Iteration is in the order of the `values` keyword mapping. -/
def Model.includedColumns (m : Model) (values : List (String × Value)) : List String :=
  (values.map Prod.fst).filter (fun col => m.hasCol col)

/-- Line 81: `values_to_insert = [values[col] for col in columns_to_insert]`. -/
def Model.includedValues (m : Model) (values : List (String × Value)) : List Value :=
  (m.includedColumns values).filterMap (fun col => values.lookup col)

/-- `Model.insertRow` (`src/Model.py` lines 71-112).  Returns the built
statement structure and the positional parameter list, or the
missing-columns error of lines 84-86 (raised before any statement reaches
the connection).  Note: line 84 compares
`len(columns_to_insert) + len(self.serial_primary_keys) < len(self.columns)`
independently of `update`, and line 80 performs no `None` filtering. -/
def Model.insertRow (m : Model) (update : Bool) (values : List (String × Value)) :
    Except RowError (InsertQuery × List Value) :=
  let columns_to_insert := m.includedColumns values
  let values_to_insert := m.includedValues values
  if columns_to_insert.length + m.serial_primary_keys.length < m.columns.length then
    .error (.MissingColumnValue
      ((m.columns.map Prod.fst).filter (fun c => !(columns_to_insert.contains c))))
  else
    .ok ({ table := m.name,
           insert_columns := columns_to_insert,
           placeholders := values_to_insert.length,
           conflict :=
             if update then
               .doUpdate m.primary_keys
                 (columns_to_insert.filter (fun c => !(m.primary_keys.contains c)))
             else
               .doNothing,
           returning := "id" }, values_to_insert)

/-- The structure of `DELETE FROM table WHERE c = %s AND ...`
(`src/Model.py` lines 123-129): one equality condition per element of
`where_cols`, joined with AND in list order. -/
structure DeleteQuery where
  table : String
  where_cols : List String
deriving DecidableEq, Repr

/-- The `ValueError("Provide values for all primary keys")` of line 121. -/
inductive DeleteError
  | PrimaryKeyArityMismatch
deriving DecidableEq, Repr

/-- `Model.deleteRow` (`src/Model.py` lines 114-130): arity check at line
120 (raised before any statement reaches the connection), then the DELETE
statement over the primary keys in declaration order with the values
bound positionally. -/
def Model.deleteRow (m : Model) (row_values : List Value) :
    Except DeleteError (DeleteQuery × List Value) :=
  if row_values.length ≠ m.primary_keys.length then
    .error .PrimaryKeyArityMismatch
  else
    .ok ({ table := m.name, where_cols := m.primary_keys }, row_values)

/-- The structure of the SELECT statement of `src/Model.py` lines 157-163:
`select_columns = none` renders `*` (Python: `columns` falsy, line 142);
one `col = %s` equality per element of `where_cols` joined with AND
(lines 146-147); `ORDER BY` columns in order (line 151); `has_limit`
records the presence of the `LIMIT %s` placeholder (line 155) — the
limit value itself never appears in the statement. -/
structure SelectQuery where
  select_columns : Option (List String)
  table : String
  where_cols : List String
  order_cols : List String
  has_limit : Bool
deriving DecidableEq, Repr

/-- `Model.select` (`src/Model.py` lines 132-169).  An empty `columns`
or `where` or `order` list models the Python argument being `None` or
empty (both falsy, treated identically at lines 142-151); `limit` uses
`is not None` (line 154), modelled by `Option`.  Parameters are the
`where` values in mapping order followed by the limit value when present
(lines 165-167). -/
def Model.select (m : Model) (columns : List String) (whr : List (String × Value))
    (order : List String) (limit : Option Value) : SelectQuery × List Value :=
  ({ select_columns := if columns.isEmpty then none else some columns,
     table := m.name,
     where_cols := whr.map Prod.fst,
     order_cols := order,
     has_limit := limit.isSome },
   whr.map Prod.snd ++ limit.toList)

/-- The structure of the CREATE TABLE statement of `src/Model.py`
lines 50-69. -/
structure CreateQuery where
  table : String
  column_defs : List (String × String)
  primary_keys : List String
deriving DecidableEq, Repr

/-- `Model.createTable` (lines 50-69): purely the descriptor contents. -/
def Model.createTable (m : Model) : CreateQuery :=
  { table := m.name, column_defs := m.columns, primary_keys := m.primary_keys }

/-- The structure of `DROP TABLE IF EXISTS table;` (lines 44-48). -/
structure DropQuery where
  table : String
deriving DecidableEq, Repr

/-- `Model.dropTable` (lines 44-48). -/
def Model.dropTable (m : Model) : DropQuery :=
  { table := m.name }

/-- A template as loaded by `Template.loadFromFile` (`src/Database.py`):
connection parameters and the list of model definitions. -/
structure Template where
  database : List (String × String)
  models : List ModelDefinition
deriving Repr

/-- The registry state of `Database` (`src/Database.py` lines 59-69):
the optional template, the registered model names, and the table handles
attached to the object (`db.__dict__`), modelled as a name-keyed
association list. -/
structure Database where
  template : Option Template
  models_names : List String
  models : List (String × Model)

/-- The `ValueError`s raised by `Database._check` (lines 98-106). -/
inductive DbError
  | NotInitialized (msg : String)
deriving DecidableEq, Repr

/-- `Database._check` (`src/Database.py` lines 98-106). -/
def Database.check (db : Database) : Except DbError Unit :=
  match db.template with
  | none => .error (.NotInitialized "Template has not been created")
  | some _ =>
    if db.models_names.length = 0 then
      .error (.NotInitialized "Models have not been created")
    else
      .ok ()

/-- A statement executed through the connection collaborator by the bulk
registry operations. -/
inductive Stmt
  | create (q : CreateQuery)
  | drop (q : DropQuery)
deriving DecidableEq, Repr

/-- `Database.createModels` (lines 108-115): `_check`, then one CREATE
per registered model name (`getattr(self, k).createTable()`).  The value
is the list of statements handed to the connection; an error means no
statement was executed. -/
def Database.createModels (db : Database) : Except DbError (List Stmt) :=
  match db.check with
  | .error e => .error e
  | .ok _ =>
    .ok (db.models_names.filterMap
      (fun k => (db.models.lookup k).map (fun m => Stmt.create m.createTable)))

/-- `Database.dropModels` (lines 117-124). -/
def Database.dropModels (db : Database) : Except DbError (List Stmt) :=
  match db.check with
  | .error e => .error e
  | .ok _ =>
    .ok (db.models_names.filterMap
      (fun k => (db.models.lookup k).map (fun m => Stmt.drop m.dropTable)))

/-- `Database.resetModels` (lines 126-133): `_check`, then all drops,
then all creates. -/
def Database.resetModels (db : Database) : Except DbError (List Stmt) :=
  match db.check with
  | .error e => .error e
  | .ok _ =>
    match db.dropModels with
    | .error e => .error e
    | .ok ds =>
      match db.createModels with
      | .error e => .error e
      | .ok cs => .ok (ds ++ cs)

/-- The `users` descriptor of the spec examples:
`table="users", primary_keys=["id"],
columns={"id":"SERIAL","name":"TEXT","age":"INT"}`. -/
def usersModel : Model :=
  { name := "users",
    primary_keys := ["id"],
    columns := [("id", "SERIAL"), ("name", "TEXT"), ("age", "INT")] }

/-- The `users` descriptor as a raw model definition. -/
def usersDefinition : ModelDefinition :=
  { name := "users",
    primary_keys := some ["id"],
    columns := [("id", "SERIAL"), ("name", "TEXT"), ("age", "INT")] }

example : mkModel usersDefinition = .ok usersModel := rfl

example : usersModel.serial_primary_keys = ["id"] := rfl

example : usersModel.insertRow false [("name", .str "Alice"), ("age", .int 30)] =
    .ok ({ table := "users", insert_columns := ["name", "age"], placeholders := 2,
           conflict := .doNothing, returning := "id" },
         [.str "Alice", .int 30]) := rfl

example : usersModel.insertRow true [("id", .int 1), ("name", .str "Bob"), ("age", .int 31)] =
    .ok ({ table := "users", insert_columns := ["id", "name", "age"], placeholders := 3,
           conflict := .doUpdate ["id"] ["name", "age"], returning := "id" },
         [.int 1, .str "Bob", .int 31]) := rfl

/-! ## Helper lemmas about the builder -/

lemma hasCol_iff (m : Model) (c : String) :
    m.hasCol c = true ↔ c ∈ m.columns.map Prod.fst :=
  List.elem_iff

lemma mem_includedColumns (m : Model) (values : List (String × Value)) (c : String) :
    c ∈ m.includedColumns values ↔ c ∈ values.map Prod.fst ∧ m.hasCol c = true := by
  simp [Model.includedColumns, List.mem_filter]

lemma length_le_of_nodup_subset {l₁ l₂ : List String} (h₁ : l₁.Nodup) (hsub : l₁ ⊆ l₂) :
    l₁.length ≤ l₂.length := by
  calc l₁.length = l₁.toFinset.card := (List.toFinset_card_of_nodup h₁).symm
    _ ≤ l₂.toFinset.card := Finset.card_le_card (fun a ha => by
          rw [List.mem_toFinset] at ha ⊢
          exact hsub ha)
    _ ≤ l₂.length := l₂.toFinset_card_le

lemma length_filter_split (p : String → Bool) (l : List String) :
    (l.filter p).length + (l.filter (fun a => !(p a))).length = l.length := by
  induction l with
  | nil => rfl
  | cons a t ih =>
    by_cases h : p a = true <;>
      simp only [List.filter_cons, h, Bool.not_true, Bool.not_false, if_true, if_false,
        Bool.false_eq_true, List.length_cons] <;> omega

/-- Every serial key comes from a column of the table (line 29 ranges over
the column mapping). -/
lemma serial_primary_keys_sublist (m : Model) :
    m.serial_primary_keys.Sublist (m.columns.map Prod.fst) :=
  (List.filter_sublist m.columns).map Prod.fst

/-- The length check of `src/Model.py` line 84 passes whenever the values
mapping covers every column that is not a serial key (columns assumed
distinct, as Python dict keys are). -/
lemma included_covers_length (m : Model) (values : List (String × Value))
    (hnc : (m.columns.map Prod.fst).Nodup)
    (hcov : ∀ c ∈ m.columns.map Prod.fst,
      c ∉ m.serial_primary_keys → c ∈ values.map Prod.fst) :
    m.columns.length ≤ (m.includedColumns values).length + m.serial_primary_keys.length := by
  have hlen : m.columns.length = (m.columns.map Prod.fst).length :=
    (List.length_map _ _).symm
  have hsplit := length_filter_split
    (fun c => m.serial_primary_keys.contains c) (m.columns.map Prod.fst)
  have h1 : ((m.columns.map Prod.fst).filter
      (fun c => m.serial_primary_keys.contains c)).length ≤ m.serial_primary_keys.length := by
    apply length_le_of_nodup_subset (hnc.filter _)
    intro c hc
    exact List.elem_iff.mp (List.mem_filter.mp hc).2
  have h2 : ((m.columns.map Prod.fst).filter
      (fun c => !(m.serial_primary_keys.contains c))).length ≤
      (m.includedColumns values).length := by
    apply length_le_of_nodup_subset (hnc.filter _)
    intro c hc
    obtain ⟨hcC, hns⟩ := List.mem_filter.mp hc
    have hnmem : c ∉ m.serial_primary_keys := by
      intro hmem
      rw [Bool.not_eq_true', ← Bool.not_eq_true] at hns
      exact hns (List.elem_iff.mpr hmem)
    exact (mem_includedColumns m values c).mpr
      ⟨hcov c hcC hnmem, (hasCol_iff m c).mpr hcC⟩
  omega

lemma lookup_isSome_of_mem_keys {l : List (String × Value)} {c : String}
    (h : c ∈ l.map Prod.fst) : (l.lookup c).isSome = true := by
  induction l with
  | nil => simp at h
  | cons kv t ih =>
    obtain ⟨k, v⟩ := kv
    by_cases hck : c = k
    · subst hck
      simp [List.lookup]
    · have hck2 : (c == k) = false := by
        exact beq_eq_false_iff_ne.mpr hck
      simp only [List.map_cons, List.mem_cons] at h
      rcases h with h | h
      · exact absurd h hck
      · simpa [List.lookup, hck2] using ih h

lemma length_filterMap_of_isSome {f : String → Option Value} :
    ∀ {L : List String}, (∀ c ∈ L, (f c).isSome = true) → (L.filterMap f).length = L.length := by
  intro L
  induction L with
  | nil => intro _; rfl
  | cons a t ih =>
    intro h
    have ha := h a (List.mem_cons_self a t)
    obtain ⟨v, hv⟩ := Option.isSome_iff_exists.mp ha
    simp [List.filterMap_cons, hv, ih (fun c hc => h c (List.mem_cons_of_mem a hc))]

/-- Lines 80-81: there are exactly as many bound values (placeholders) as
included columns. -/
lemma includedValues_length (m : Model) (values : List (String × Value)) :
    (m.includedValues values).length = (m.includedColumns values).length := by
  apply length_filterMap_of_isSome
  intro c hc
  exact lookup_isSome_of_mem_keys ((mem_includedColumns m values c).mp hc).1

lemma lookup_filter_key (p : String → Bool) {c : String} (hc : p c = true) :
    ∀ l : List (String × Value), (l.filter (fun kv => p kv.1)).lookup c = l.lookup c := by
  intro l
  induction l with
  | nil => rfl
  | cons kv t ih =>
    obtain ⟨k, v⟩ := kv
    by_cases hck : c = k
    · subst hck
      simp [List.filter_cons, hc, List.lookup]
    · have hck2 : (c == k) = false := beq_eq_false_iff_ne.mpr hck
      by_cases hk : p k = true <;>
        simp [List.filter_cons, hk, List.lookup, hck2, ih]

lemma includedColumns_filter (m : Model) (values : List (String × Value)) :
    m.includedColumns (values.filter (fun kv => m.hasCol kv.1)) = m.includedColumns values := by
  unfold Model.includedColumns
  induction values with
  | nil => rfl
  | cons kv t ih =>
    by_cases h : m.hasCol kv.1 = true <;>
      simp [List.filter_cons, h, ih]

lemma filterMap_congr_mem {f g : String → Option Value} :
    ∀ {L : List String}, (∀ c ∈ L, f c = g c) → L.filterMap f = L.filterMap g := by
  intro L
  induction L with
  | nil => intro _; rfl
  | cons a t ih =>
    intro h
    simp [List.filterMap_cons, h a (List.mem_cons_self a t),
      ih (fun c hc => h c (List.mem_cons_of_mem a hc))]

lemma includedValues_filter (m : Model) (values : List (String × Value)) :
    m.includedValues (values.filter (fun kv => m.hasCol kv.1)) = m.includedValues values := by
  unfold Model.includedValues
  rw [includedColumns_filter]
  apply filterMap_congr_mem
  intro c hc
  exact lookup_filter_key m.hasCol ((mem_includedColumns m values c).mp hc).2 values

/-- The outcome of the line-84 check does not mention `update`. -/
lemma insertRow_isOk (m : Model) (update : Bool) (values : List (String × Value)) :
    (m.insertRow update values).isOk =
      !(decide ((m.includedColumns values).length + m.serial_primary_keys.length
          < m.columns.length)) := by
  unfold Model.insertRow
  by_cases h : (m.includedColumns values).length + m.serial_primary_keys.length
      < m.columns.length <;>
    simp [h, Except.isOk, Except.toBool]

/-! ## Claim theorems -/

/-- C6: `deleteRow` fails with `PrimaryKeyArityMismatch` exactly when the
number of supplied values differs from the number of declared primary
keys (either direction), and otherwise builds the DELETE statement whose
WHERE clause lists the primary keys in declaration order with the values
bound positionally in the same order; in the failure case the result is
the error alone, so no statement reaches the connection collaborator. -/
theorem deleteRow_arity_and_shape (m : Model) (rv : List Value) :
    (m.deleteRow rv = .error .PrimaryKeyArityMismatch ↔ rv.length ≠ m.primary_keys.length)
    ∧ (rv.length = m.primary_keys.length →
        m.deleteRow rv = .ok ({ table := m.name, where_cols := m.primary_keys }, rv)) := by
  unfold Model.deleteRow
  by_cases h : rv.length = m.primary_keys.length
  · simp [h]
  · simp [h]

/-- C6 witness: on the `users` descriptor, a correct-arity delete builds
the statement, and both a too-short and a too-long value list fail. -/
theorem deleteRow_arity_and_shape_inst :
    usersModel.deleteRow [Value.int 7] =
      .ok ({ table := "users", where_cols := ["id"] }, [Value.int 7])
    ∧ usersModel.deleteRow [] = .error .PrimaryKeyArityMismatch
    ∧ usersModel.deleteRow [Value.int 1, Value.int 2] = .error .PrimaryKeyArityMismatch :=
  ⟨(deleteRow_arity_and_shape usersModel [Value.int 7]).2 (by decide),
   (deleteRow_arity_and_shape usersModel []).1.mpr (by decide),
   (deleteRow_arity_and_shape usersModel [Value.int 1, Value.int 2]).1.mpr (by decide)⟩

/-- C7: `select` builds one equality condition per entry of the `where`
mapping (in mapping order, joined with AND) and binds exactly the
corresponding values, with a given `limit` bound as the final parameter
after all `where` parameters; the statement structure is identical for
any two limit values, so the limit is never inlined into the text.  The
last two conjuncts check the spec example `where = (age, 5)`: a single
condition on `age` and the single bound parameter 5. -/
theorem select_where_params_and_limit (m : Model) (cols : List String)
    (whr : List (String × Value)) (ord : List String) (lim : Option Value) :
    ((m.select cols whr ord lim).1.where_cols = whr.map Prod.fst)
    ∧ ((m.select cols whr ord lim).2 = whr.map Prod.snd ++ lim.toList)
    ∧ (∀ v w : Value, (m.select cols whr ord (some v)).1 = (m.select cols whr ord (some w)).1)
    ∧ (usersModel.select [] [("age", Value.int 5)] [] none).1.where_cols = ["age"]
    ∧ (usersModel.select [] [("age", Value.int 5)] [] none).2 = [Value.int 5] :=
  ⟨rfl, rfl, fun _ _ => rfl, rfl, rfl⟩

/-- C9: when no table handles exist (no template loaded, or no model
names registered), each bulk registry operation returns the
`NotInitialized` failure of `Database._check`; the error carries no
statement list, so nothing is executed through the connection
collaborator. -/
theorem registry_fails_before_setup (db : Database)
    (h : db.template = none ∨ db.models_names = []) :
    (∃ s, db.createModels = .error (.NotInitialized s))
    ∧ (∃ s, db.dropModels = .error (.NotInitialized s))
    ∧ (∃ s, db.resetModels = .error (.NotInitialized s)) := by
  have hch : ∃ s, db.check = .error (.NotInitialized s) := by
    rcases h with h | h
    · exact ⟨"Template has not been created", by simp [Database.check, h]⟩
    · cases htp : db.template with
      | none => exact ⟨"Template has not been created", by simp [Database.check, htp]⟩
      | some t => exact ⟨"Models have not been created", by simp [Database.check, htp, h]⟩
  obtain ⟨s, hs⟩ := hch
  exact ⟨⟨s, by simp [Database.createModels, hs]⟩,
         ⟨s, by simp [Database.dropModels, hs]⟩,
         ⟨s, by simp [Database.resetModels, hs]⟩⟩

/-- A freshly constructed registry (`Database.__init__`): no template, no
registered names, no handles. -/
def emptyDatabase : Database :=
  { template := none, models_names := [], models := [] }

/-- C9 witness: the fresh registry fails all three bulk operations. -/
theorem registry_fails_before_setup_inst :
    (∃ s, emptyDatabase.createModels = .error (.NotInitialized s))
    ∧ (∃ s, emptyDatabase.dropModels = .error (.NotInitialized s))
    ∧ (∃ s, emptyDatabase.resetModels = .error (.NotInitialized s)) :=
  registry_fails_before_setup emptyDatabase (Or.inl rfl)

/-- C10: entries of the values mapping whose key is not a declared column
are silently ignored by `insertRow`: the call behaves identically with
those entries removed (same statement, same parameters, same
missing-column accounting, no error caused by them), and every column of
the built statement is a declared column. -/
theorem insertRow_ignores_undeclared_keys (m : Model) (update : Bool)
    (values : List (String × Value)) :
    m.insertRow update values = m.insertRow update (values.filter (fun kv => m.hasCol kv.1))
    ∧ (∀ q p, m.insertRow update values = .ok (q, p) →
        ∀ c ∈ q.insert_columns, m.hasCol c = true) := by
  constructor
  · unfold Model.insertRow
    rw [includedColumns_filter, includedValues_filter]
  · intro q p h c hc
    simp only [Model.insertRow] at h
    split at h
    · exact Except.noConfusion h
    · simp only [Except.ok.injEq, Prod.mk.injEq] at h
      obtain ⟨hq, hp⟩ := h
      subst hq
      exact ((mem_includedColumns m values c).mp hc).2

/-- C10 witness: on the `users` descriptor an extra undeclared key
changes nothing and the built columns are declared ones. -/
theorem insertRow_ignores_undeclared_keys_inst :
    usersModel.insertRow false
        [("oops", Value.int 9), ("name", Value.str "Alice"), ("age", Value.int 30)] =
      usersModel.insertRow false
        (([("oops", Value.int 9), ("name", Value.str "Alice"), ("age", Value.int 30)] :
          List (String × Value)).filter (fun kv => usersModel.hasCol kv.1))
    ∧ usersModel.hasCol "name" = true :=
  ⟨(insertRow_ignores_undeclared_keys usersModel false
      [("oops", Value.int 9), ("name", Value.str "Alice"), ("age", Value.int 30)]).1,
   (insertRow_ignores_undeclared_keys usersModel false
      [("oops", Value.int 9), ("name", Value.str "Alice"), ("age", Value.int 30)]).2
      { table := "users", insert_columns := ["name", "age"], placeholders := 2,
        conflict := .doNothing, returning := "id" }
      [Value.str "Alice", Value.int 30] rfl "name" (by decide)⟩

/-- C1, counterexample: the claim asserts the column list follows
DESCRIPTOR order, but line 80 iterates over the values mapping, so a
call supplying `age` before `name` (still covering every non-generated
column of `users`) produces the column list `age, name`, not the
descriptor order `name, age`. -/
theorem insertRow_not_descriptor_order :
    usersModel.insertRow false [("age", Value.int 30), ("name", Value.str "Alice")] =
      .ok ({ table := "users", insert_columns := ["age", "name"], placeholders := 2,
             conflict := .doNothing, returning := "id" },
           [Value.int 30, Value.str "Alice"])
    ∧ (["age", "name"] : List String) ≠ ["name", "age"] :=
  ⟨rfl, by decide⟩

/-- C1 (amended): for a values mapping covering all columns outside the
serial-key set, `insertRow(update=false)` succeeds and builds the INSERT
statement whose column list is exactly the included columns in VALUES
order, with one placeholder per included column, `ON CONFLICT DO
NOTHING`, `RETURNING id`, and the included values bound in the same
order. -/
theorem insertRow_noUpdate_shape (m : Model) (values : List (String × Value))
    (hnc : (m.columns.map Prod.fst).Nodup)
    (hcov : ∀ c ∈ m.columns.map Prod.fst,
      c ∉ m.serial_primary_keys → c ∈ values.map Prod.fst) :
    m.insertRow false values =
      .ok ({ table := m.name,
             insert_columns := m.includedColumns values,
             placeholders := (m.includedColumns values).length,
             conflict := .doNothing,
             returning := "id" }, m.includedValues values) := by
  have hle := included_covers_length m values hnc hcov
  have hnot : ¬ ((m.includedColumns values).length + m.serial_primary_keys.length
      < m.columns.length) := by omega
  simp [Model.insertRow, hnot, includedValues_length]

/-- C1 witness: the spec example,
`insertRow(name="Alice", age=30)` on `users`. -/
theorem insertRow_noUpdate_shape_inst :
    usersModel.insertRow false [("name", Value.str "Alice"), ("age", Value.int 30)] =
      .ok ({ table := "users", insert_columns := ["name", "age"], placeholders := 2,
             conflict := .doNothing, returning := "id" },
           [Value.str "Alice", Value.int 30]) :=
  insertRow_noUpdate_shape usersModel
    [("name", Value.str "Alice"), ("age", Value.int 30)] (by decide) (by decide)

/-- C2, counterexample: the claim asserts that omitting the generated
primary key `id` fails with `MissingColumnValue` when `update=true`; but
the line-84 check never consults `update`, so the same call succeeds and
builds the upsert statement. -/
theorem insertRow_update_omitting_serial_succeeds :
    usersModel.insertRow true [("name", Value.str "Bob"), ("age", Value.int 31)] =
      .ok ({ table := "users", insert_columns := ["name", "age"], placeholders := 2,
             conflict := .doUpdate ["id"] ["name", "age"], returning := "id" },
           [Value.str "Bob", Value.int 31]) := rfl

/-- C2 (amended): omitting a generated (serial) key while supplying every
other column succeeds for BOTH `update=false` and `update=true` — the
missing-value check of line 84 is independent of `update` (last
conjunct, with no coverage assumption at all). -/
theorem insertRow_succeeds_regardless_of_update (m : Model)
    (values : List (String × Value))
    (hnc : (m.columns.map Prod.fst).Nodup)
    (hcov : ∀ c ∈ m.columns.map Prod.fst,
      c ∉ m.serial_primary_keys → c ∈ values.map Prod.fst) :
    (m.insertRow false values).isOk = true
    ∧ (m.insertRow true values).isOk = true
    ∧ (∀ (vs : List (String × Value)) (u₁ u₂ : Bool),
        (m.insertRow u₁ vs).isOk = (m.insertRow u₂ vs).isOk) := by
  have hle := included_covers_length m values hnc hcov
  have hnot : ¬ ((m.includedColumns values).length + m.serial_primary_keys.length
      < m.columns.length) := by omega
  refine ⟨?_, ?_, fun vs u₁ u₂ => by rw [insertRow_isOk, insertRow_isOk]⟩ <;>
    simp [insertRow_isOk, hnot]

/-- C2 witness: on `users`, omitting the serial key `id` succeeds with
and without `update`. -/
theorem insertRow_succeeds_regardless_of_update_inst :
    (usersModel.insertRow false [("name", Value.str "Bob"), ("age", Value.int 31)]).isOk = true
    ∧ (usersModel.insertRow true [("name", Value.str "Bob"), ("age", Value.int 31)]).isOk = true :=
  ⟨(insertRow_succeeds_regardless_of_update usersModel
      [("name", Value.str "Bob"), ("age", Value.int 31)] (by decide) (by decide)).1,
   (insertRow_succeeds_regardless_of_update usersModel
      [("name", Value.str "Bob"), ("age", Value.int 31)] (by decide) (by decide)).2.1⟩

/-- C3: whenever `insertRow(update=true)` builds a statement, its
conflict clause is `ON CONFLICT (primary keys, declaration order) DO
UPDATE SET c = EXCLUDED.c` for exactly the included columns that are not
primary keys (lines 91-99). -/
theorem insertRow_update_conflict_clause (m : Model) (values : List (String × Value))
    (q : InsertQuery) (p : List Value)
    (h : m.insertRow true values = .ok (q, p)) :
    q.conflict = .doUpdate m.primary_keys
      (q.insert_columns.filter (fun c => !(m.primary_keys.contains c))) := by
  simp only [Model.insertRow] at h
  split at h
  · exact Except.noConfusion h
  · simp only [Except.ok.injEq, Prod.mk.injEq] at h
    obtain ⟨hq, hp⟩ := h
    subst hq
    rfl

/-- C3 witness: the spec example
`insertRow(update=true, id=1, name="Bob", age=31)` on `users` yields the
clause `ON CONFLICT (id) DO UPDATE SET name = EXCLUDED.name,
age = EXCLUDED.age`. -/
theorem insertRow_update_conflict_clause_inst :
    usersModel.insertRow true
        [("id", Value.int 1), ("name", Value.str "Bob"), ("age", Value.int 31)] =
      .ok ({ table := "users", insert_columns := ["id", "name", "age"], placeholders := 3,
             conflict := .doUpdate ["id"] ["name", "age"], returning := "id" },
           [Value.int 1, Value.str "Bob", Value.int 31])
    ∧ ({ table := "users", insert_columns := ["id", "name", "age"], placeholders := 3,
         conflict := .doUpdate ["id"] ["name", "age"], returning := "id" } : InsertQuery).conflict =
        .doUpdate usersModel.primary_keys
          (({ table := "users", insert_columns := ["id", "name", "age"], placeholders := 3,
              conflict := .doUpdate ["id"] ["name", "age"],
              returning := "id" } : InsertQuery).insert_columns.filter
            (fun c => !(usersModel.primary_keys.contains c))) :=
  ⟨rfl,
   insertRow_update_conflict_clause usersModel
     [("id", Value.int 1), ("name", Value.str "Bob"), ("age", Value.int 31)]
     { table := "users", insert_columns := ["id", "name", "age"], placeholders := 3,
       conflict := .doUpdate ["id"] ["name", "age"], returning := "id" }
     [Value.int 1, Value.str "Bob", Value.int 31] rfl⟩

/-- C5, counterexample: the claim asserts a `None` value supplied for a
non-generated column is treated as absent and raises
`MissingColumnValue`; but line 80 filters only on key membership, so
`name=None` is included and `None` is bound as a parameter (matching the
docstring of `insertRow`: `None` means SQL NULL). -/
theorem insertRow_null_value_bound :
    usersModel.insertRow false [("name", Value.null), ("age", Value.int 30)] =
      .ok ({ table := "users", insert_columns := ["name", "age"], placeholders := 2,
             conflict := .doNothing, returning := "id" },
           [Value.null, Value.int 30]) := rfl

/-- C5 (amended): `insertRow` includes a column exactly when its key is
present in the values mapping (regardless of the value — `None`
included), and every supplied value, `None` included, is bound as a
parameter via the per-column lookup rather than raising an error. -/
theorem insertRow_includes_iff_present (m : Model) (update : Bool)
    (values : List (String × Value)) (q : InsertQuery) (p : List Value)
    (h : m.insertRow update values = .ok (q, p)) :
    q.insert_columns = m.includedColumns values
    ∧ p = m.includedValues values
    ∧ (∀ c, c ∈ q.insert_columns ↔ c ∈ values.map Prod.fst ∧ m.hasCol c = true) := by
  simp only [Model.insertRow] at h
  split at h
  · exact Except.noConfusion h
  · simp only [Except.ok.injEq, Prod.mk.injEq] at h
    obtain ⟨hq, hp⟩ := h
    subst hq
    subst hp
    exact ⟨rfl, rfl, fun c => mem_includedColumns m values c⟩

/-- C5 witness: applied to the `name=None` call on `users`. -/
theorem insertRow_includes_iff_present_inst :
    (["name", "age"] : List String) =
      usersModel.includedColumns [("name", Value.null), ("age", Value.int 30)]
    ∧ ([Value.null, Value.int 30] : List Value) =
      usersModel.includedValues [("name", Value.null), ("age", Value.int 30)] :=
  ⟨(insertRow_includes_iff_present usersModel false
      [("name", Value.null), ("age", Value.int 30)]
      { table := "users", insert_columns := ["name", "age"], placeholders := 2,
        conflict := .doNothing, returning := "id" }
      [Value.null, Value.int 30] rfl).1,
   (insertRow_includes_iff_present usersModel false
      [("name", Value.null), ("age", Value.int 30)]
      { table := "users", insert_columns := ["name", "age"], placeholders := 2,
        conflict := .doNothing, returning := "id" }
      [Value.null, Value.int 30] rfl).2.1⟩

/-- Classifier: did `mkModel` fail with `MissingParameter`? -/
def isMissingParameterResult : Except InitError Model → Bool
  | .error (.MissingParameter _) => true
  | _ => false

/-- Classifier: did `mkModel` fail with `InvalidPrimaryKey`? -/
def isInvalidPrimaryKeyResult : Except InitError Model → Bool
  | .error (.InvalidPrimaryKey _) => true
  | _ => false

/-- The `MissingParameter` conditions of claim C8, stated from the words
of the spec: empty name, primary-key list absent/not a list (`none`) or
empty, or empty column mapping. -/
def missingParameterCond (d : ModelDefinition) : Bool :=
  decide (d.name = "") || decide (d.primary_keys = none) ||
    decide (d.primary_keys = some []) || decide (d.columns = [])

/-- The `InvalidPrimaryKey` condition of claim C8: some declared primary
key is absent from the column mapping. -/
def invalidPrimaryKeyCond (d : ModelDefinition) : Bool :=
  (d.primary_keys.getD []).any (fun pk => !(decide (pk ∈ d.columns.map Prod.fst)))

/-- C8: `Model.__init__` fails with `MissingParameter` exactly under the
missing-parameter conditions (empty name; absent, non-list or empty
primary-key list; empty column mapping), fails with `InvalidPrimaryKey`
exactly when those conditions do not hold and some primary key is not a
declared column, and succeeds exactly when neither class of condition
holds. -/
theorem mkModel_error_classification (d : ModelDefinition) :
    isMissingParameterResult (mkModel d) = missingParameterCond d
    ∧ isInvalidPrimaryKeyResult (mkModel d) =
        (!missingParameterCond d && invalidPrimaryKeyCond d)
    ∧ (mkModel d).isOk = (!missingParameterCond d && !invalidPrimaryKeyCond d) := by
  obtain ⟨name, pko, cols⟩ := d
  by_cases hn : name = ""
  · subst hn
    simp [mkModel, missingParameterCond, isMissingParameterResult,
      isInvalidPrimaryKeyResult, Except.isOk, Except.toBool]
  · cases pko with
    | none =>
      simp [mkModel, hn, missingParameterCond, isMissingParameterResult,
        isInvalidPrimaryKeyResult, Except.isOk, Except.toBool]
    | some pks =>
      by_cases hp : pks = []
      · subst hp
        simp [mkModel, hn, missingParameterCond, isMissingParameterResult,
          isInvalidPrimaryKeyResult, Except.isOk, Except.toBool]
      · by_cases hc : cols = []
        · subst hc
          simp [mkModel, hn, hp, missingParameterCond, isMissingParameterResult,
            isInvalidPrimaryKeyResult, Except.isOk, Except.toBool]
        · cases hf : pks.find? (fun pk => !(decide (pk ∈ cols.map Prod.fst))) with
          | some pk =>
            have hppk := List.find?_some hf
            have hmem := List.mem_of_find?_eq_some hf
            have hany : pks.any (fun pk => !(decide (pk ∈ cols.map Prod.fst))) = true :=
              List.any_eq_true.mpr ⟨pk, hmem, hppk⟩
            simp [mkModel, hn, hp, hc, hf, hany, missingParameterCond,
              invalidPrimaryKeyCond, isMissingParameterResult,
              isInvalidPrimaryKeyResult, Except.isOk, Except.toBool]
          | none =>
            have hany : pks.any (fun pk => !(decide (pk ∈ cols.map Prod.fst))) = false := by
              rw [List.any_eq_false]
              intro x hx
              simpa using List.find?_eq_none.mp hf x hx
            simp [mkModel, hn, hp, hc, hf, hany, missingParameterCond,
              invalidPrimaryKeyCond, isMissingParameterResult,
              isInvalidPrimaryKeyResult, Except.isOk, Except.toBool]

/-- C8 witness: an empty name is a `MissingParameter` failure, a primary
key not among the columns is an `InvalidPrimaryKey` failure, and the
`users` definition constructs successfully. -/
theorem mkModel_error_classification_inst :
    isMissingParameterResult
        (mkModel { name := "", primary_keys := some ["id"], columns := [("id", "SERIAL")] }) =
      missingParameterCond { name := "", primary_keys := some ["id"], columns := [("id", "SERIAL")] }
    ∧ isInvalidPrimaryKeyResult
        (mkModel { name := "t", primary_keys := some ["nope"], columns := [("id", "SERIAL")] }) =
      (!missingParameterCond { name := "t", primary_keys := some ["nope"], columns := [("id", "SERIAL")] }
        && invalidPrimaryKeyCond { name := "t", primary_keys := some ["nope"], columns := [("id", "SERIAL")] })
    ∧ (mkModel usersDefinition).isOk =
      (!missingParameterCond usersDefinition && !invalidPrimaryKeyCond usersDefinition) :=
  ⟨(mkModel_error_classification
      { name := "", primary_keys := some ["id"], columns := [("id", "SERIAL")] }).1,
   (mkModel_error_classification
      { name := "t", primary_keys := some ["nope"], columns := [("id", "SERIAL")] }).2.1,
   (mkModel_error_classification usersDefinition).2.2⟩

/-- The generated-key set as claim C4 words it: the subset of the
DECLARED PRIMARY KEYS whose type string contains "SERIAL". -/
def specGeneratedKeys (m : Model) : List String :=
  m.primary_keys.filter (fun pk =>
    match m.columns.lookup pk with
    | some t => isSubstring "SERIAL" t
    | none => false)

/-- A descriptor with a non-primary-key SERIAL column. -/
def counterTableModel : Model :=
  { name := "t", primary_keys := ["id"],
    columns := [("id", "SERIAL"), ("counter", "SERIAL"), ("name", "TEXT")] }

/-- C4 (code bug at `src/Model.py` line 29): `serial_primary_keys` is
computed over ALL columns, so the non-primary-key SERIAL column
`counter` lands in the generated-key set, contradicting the claim (and
the name of the source variable): the computed set differs from the
primary-keys-only set the spec derives, and `counter` becomes silently
omittable from a plain insert (last conjunct: inserting only `name`
passes the line-84 check by counting both `id` and `counter`). -/
theorem serial_primary_keys_not_restricted_to_primary :
    counterTableModel.serial_primary_keys = ["id", "counter"]
    ∧ specGeneratedKeys counterTableModel = ["id"]
    ∧ "counter" ∈ counterTableModel.serial_primary_keys
    ∧ "counter" ∉ counterTableModel.primary_keys
    ∧ (counterTableModel.insertRow false [("name", Value.str "x")]).isOk = true :=
  ⟨rfl, rfl, by decide, by decide, rfl⟩
